import Mathlib

/-!
Verification of the stock-trading system's core components against its
natural-language specification.

The embedding models:
* `app/models.py` — the `StockPrice`, `PriceAlert` and `Prediction` records
  (Python floats are modelled as rationals, timestamps as naturals);
* `app/alert_system.py` — the `AlertSystem` class, as pure state-passing
  functions over its `alerts : List PriceAlert` field;
* `app/websocket_manager.py` — the `WebSocketManager` class, with subscriber
  handles as natural-number identities and the outcome of a network send
  given by an environment oracle `sendOk`;
* `app/data_fetcher.py` — one cycle of `start_data_streaming`, with the
  external quote providers abstracted as a `fetch` oracle returning
  `Option StockPrice` (`none` covers both a `None` return and an exception
  captured by `asyncio.gather(..., return_exceptions=True)`);
* the wire-level JSON messages built in `data_fetcher.py` and `main.py`,
  over a small JSON value type.
-/

/-- JSON values, for the wire-level broadcast messages. -/
inductive JValue where
  | jnull : JValue
  | jstr : String → JValue
  | jnum : ℚ → JValue
  | jarr : List JValue → JValue
  | jobj : List (String × JValue) → JValue

/-- First value bound to a key in a JSON object's field list. -/
def lookupField : List (String × JValue) → String → Option JValue
  | [], _ => none
  | (k, v) :: rest, key => if k == key then some v else lookupField rest key

/-- Field lookup on a JSON value; `none` on non-objects. -/
def msgField (m : JValue) (key : String) : Option JValue :=
  match m with
  | .jobj fields => lookupField fields key
  | _ => none

/-- `models.StockPrice` (pydantic). Prices are rationals, timestamps naturals. -/
structure StockPrice where
  symbol : String
  price : ℚ
  volume : ℕ
  timestamp : ℕ
  change_percent : Option ℚ := none
  deriving DecidableEq, Repr

/-- `models.PriceAlert` (pydantic). `condition` is the string "above" or
"below", exactly as the source stores it. -/
structure PriceAlert where
  symbol : String
  target_price : ℚ
  condition : String
  user_id : String
  is_active : Bool := true
  created_at : ℕ := 0
  deriving DecidableEq, Repr

/-- `models.Prediction` (pydantic). -/
structure Prediction where
  symbol : String
  predicted_price : ℚ
  confidence : ℚ
  prediction_horizon : String
  timestamp : ℕ := 0
  deriving DecidableEq, Repr

namespace AlertSystem

/-- `AlertSystem.add_alert`: `self.alerts.append(alert)` inside a
`try` whose body cannot raise, then `return True`.  State-passing form:
the pair is (returned bool, new `self.alerts`). -/
def add_alert (alerts : List PriceAlert) (alert : PriceAlert) :
    Bool × List PriceAlert :=
  (true, alerts ++ [alert])

/-- `AlertSystem.remove_alert`: rebuilds `self.alerts` keeping alerts that do
NOT match both fields, then returns `removed_count > 0` where
`removed_count = initial_count - len(self.alerts)`. -/
def remove_alert (alerts : List PriceAlert) (symbol user_id : String) :
    Bool × List PriceAlert :=
  let remaining :=
    alerts.filter (fun alert => !(alert.symbol == symbol && alert.user_id == user_id))
  (decide (remaining.length < alerts.length), remaining)

/-- The `should_trigger` computation in `AlertSystem.check_alerts`
(lines 45-50): `above` compares `stock_data.price >= alert.target_price`,
`below` compares `stock_data.price <= alert.target_price`. -/
def shouldTrigger (alert : PriceAlert) (stock : StockPrice) : Bool :=
  (alert.condition == "above" && decide (alert.target_price ≤ stock.price))
  || (alert.condition == "below" && decide (stock.price ≤ alert.target_price))

/-- `AlertSystem.check_alerts`: iterates over a copy of `self.alerts`,
skips inactive or symbol-mismatched alerts, appends each triggering alert to
`triggered_alerts` and sets its `is_active` to `False` in place.  The result
pair is (state of `self.alerts` after the call, returned triggered list);
the in-place mutation makes the returned alerts inactive as well. -/
def check_alerts : List PriceAlert → StockPrice → List PriceAlert × List PriceAlert
  | [], _ => ([], [])
  | alert :: rest, stock =>
    let (updated, triggered) := check_alerts rest stock
    if !alert.is_active || alert.symbol != stock.symbol then
      (alert :: updated, triggered)
    else if shouldTrigger alert stock then
      ({ alert with is_active := false } :: updated,
       { alert with is_active := false } :: triggered)
    else
      (alert :: updated, triggered)

/-- Python truthiness of the `Optional[str]` argument of
`get_active_alerts`: `None` and the empty string are falsy. -/
def strTruthy : Option String → Bool
  | none => false
  | some s => s != ""

/-- `AlertSystem.get_active_alerts`: `if user_id:` filters by active flag and
owner; otherwise (`None` or empty string) filters by active flag only. -/
def get_active_alerts (alerts : List PriceAlert) (user_id : Option String) :
    List PriceAlert :=
  if strTruthy user_id then
    alerts.filter (fun a => a.is_active && some a.user_id == user_id)
  else
    alerts.filter (fun a => a.is_active)

/-- The content of the Telegram message built by
`AlertSystem.send_alert_notification`: recipient `alert.user_id`, and a body
carrying the alert's symbol, target price, the current (trigger) price, the
condition, and the send time `datetime.now()` (modelled as `now`). -/
structure AlertNotification where
  chat_id : String
  symbol : String
  target_price : ℚ
  current_price : ℚ
  condition : String
  time : ℕ
  deriving DecidableEq, Repr

/-- `AlertSystem.send_alert_notification` as the notification value it emits. -/
def send_alert_notification (now : ℕ) (alert : PriceAlert)
    (current_price : ℚ) : AlertNotification :=
  { chat_id := alert.user_id
    symbol := alert.symbol
    target_price := alert.target_price
    current_price := current_price
    condition := alert.condition
    time := now }

/-- `AlertSystem.process_stock_update`: runs `check_alerts`, then sends one
notification per triggered alert at the quote's price. -/
def process_stock_update (now : ℕ) (alerts : List PriceAlert)
    (stock : StockPrice) : List PriceAlert × List AlertNotification :=
  let (updated, triggered) := check_alerts alerts stock
  (updated, triggered.map (fun a => send_alert_notification now a stock.price))

end AlertSystem

namespace WebSocketManager

/-- `WebSocketManager.connect`: `self.active_connections.append(websocket)`
(the Redis client initialisation has no effect on the membership list). -/
def connect (conns : List ℕ) (ws : ℕ) : List ℕ :=
  conns ++ [ws]

/-- `WebSocketManager.disconnect`: removes the first occurrence of the handle
when present, does nothing otherwise. -/
def disconnect (conns : List ℕ) (ws : ℕ) : List ℕ :=
  if ws ∈ conns then conns.erase ws else conns

/-- The `for connection in self.active_connections` loop of
`WebSocketManager.broadcast`: each iteration attempts one send; a raising
send puts the connection on the `disconnected` list, a non-raising one has
delivered the message.  Returns (delivered, disconnected), each in
iteration order. -/
def broadcastLoop (sendOk : ℕ → Bool) : List ℕ → List ℕ × List ℕ
  | [] => ([], [])
  | c :: rest =>
    let (delivered, disconnected) := broadcastLoop sendOk rest
    if sendOk c then (c :: delivered, disconnected)
    else (delivered, c :: disconnected)

/-- Result of one `broadcast` call: the membership list afterwards, the
handles a send was attempted to, and the handles the message reached. -/
structure BroadcastResult where
  conns : List ℕ
  attempted : List ℕ
  delivered : List ℕ
  deriving DecidableEq, Repr

/-- `WebSocketManager.broadcast`: no-op on an empty membership list;
otherwise attempts a send to every connection in the list, then calls
`disconnect` on each connection whose send raised. -/
def broadcast (conns : List ℕ) (sendOk : ℕ → Bool) : BroadcastResult :=
  if conns.isEmpty then
    { conns := conns, attempted := [], delivered := [] }
  else
    let (delivered, disconnected) := broadcastLoop sendOk conns
    { conns := disconnected.foldl disconnect conns
      attempted := conns
      delivered := delivered }

end WebSocketManager

/-- `result.dict()` for a `StockPrice`, pydantic field order. -/
def stockPriceDict (p : StockPrice) : List (String × JValue) :=
  [("symbol", .jstr p.symbol),
   ("price", .jnum p.price),
   ("volume", .jnum p.volume),
   ("timestamp", .jnum p.timestamp),
   ("change_percent", match p.change_percent with
                      | some c => .jnum c
                      | none => .jnull)]

/-- The websocket message built in `DataFetcher.start_data_streaming`:
`{"type": "stock_update", "data": result.dict()}`. -/
def stockUpdateMessage (p : StockPrice) : JValue :=
  .jobj [("type", .jstr "stock_update"), ("data", .jobj (stockPriceDict p))]

/-- `pred.dict()` for a `Prediction`, pydantic field order. -/
def predictionDict (p : Prediction) : List (String × JValue) :=
  [("symbol", .jstr p.symbol),
   ("predicted_price", .jnum p.predicted_price),
   ("confidence", .jnum p.confidence),
   ("prediction_horizon", .jstr p.prediction_horizon),
   ("timestamp", .jnum p.timestamp)]

/-- The message built in `main.prediction_scheduler`:
`{"type": "predictions", "data": [pred.dict() for pred in predictions]}`. -/
def predictionsMessage (preds : List Prediction) : JValue :=
  .jobj [("type", .jstr "predictions"),
         ("data", .jarr (preds.map (fun p => .jobj (predictionDict p))))]

/-- The message echoed from `main.websocket_endpoint`:
`{"type": "echo", "message": f"Received: \x7bdata\x7d"}`. -/
def echoMessage (data : String) : JValue :=
  .jobj [("type", .jstr "echo"), ("message", .jstr ("Received: " ++ data))]

namespace DataFetcher

/-- The externally observable actions of one streaming cycle. -/
inductive Effect where
  | wsBroadcast : JValue → Effect
  | redisPublish : String → JValue → Effect
  | notify : String → AlertSystem.AlertNotification → Effect

/-- Whether an effect is an outbound user notification. -/
def Effect.isNotify : Effect → Bool
  | .notify _ _ => true
  | _ => false

/-- The per-result processing loop of `DataFetcher.start_data_streaming`
(lines 98-110): for each gathered result that is a `StockPrice`, broadcast
the `stock_update` message and publish `result.dict()` to the Redis channel
`"stock_updates"`; every other result (a `None` or a captured exception,
both modelled as `none`) is skipped. -/
def streamCycle : List (Option StockPrice) → List Effect
  | [] => []
  | some stock :: rest =>
    Effect.wsBroadcast (stockUpdateMessage stock)
      :: Effect.redisPublish "stock_updates" (.jobj (stockPriceDict stock))
      :: streamCycle rest
  | none :: rest => streamCycle rest

/-- `settings.STOCK_SYMBOLS` from `config/settings.py`. -/
def STOCK_SYMBOLS : List String := ["AAPL", "GOOGL", "MSFT", "TSLA", "AMZN"]

/-- One cycle of the quote loop over the tracked symbols: fetch each symbol
(`fetch` abstracts `fetch_stock_data`, whose failures surface as `none`),
then run the processing loop over the gathered results. -/
def runCycle (fetch : String → Option StockPrice) (symbols : List String) :
    List Effect :=
  streamCycle (symbols.map fetch)

end DataFetcher

/-- An alert as mutated by a trigger: `alert.is_active = False`. -/
def AlertSystem.deactivate (a : PriceAlert) : PriceAlert :=
  { a with is_active := false }

/-- The full per-alert trigger test of one `check_alerts` iteration:
the active/symbol guard of lines 42-43 together with `should_trigger`. -/
def AlertSystem.fires (stock : StockPrice) (a : PriceAlert) : Bool :=
  a.is_active && a.symbol == stock.symbol && AlertSystem.shouldTrigger a stock

/-- Number of alerts in the collection held by a given owner. -/
def AlertSystem.ownedCount (alerts : List PriceAlert) (uid : String) : ℕ :=
  (alerts.filter (fun a => a.user_id == uid)).length

/-- Sample alert: AAPL above 150, owner "u1". -/
def aaplAbove150 : PriceAlert :=
  { symbol := "AAPL", target_price := 150, condition := "above", user_id := "u1" }

/-- Sample alert: AAPL below 150, owner "u2". -/
def aaplBelow150 : PriceAlert :=
  { symbol := "AAPL", target_price := 150, condition := "below", user_id := "u2" }

/-- Sample quote for AAPL at a given price. -/
def quoteAAPL (price : ℚ) : StockPrice :=
  { symbol := "AAPL", price := price, volume := 1000, timestamp := 1 }

example :
    AlertSystem.check_alerts
      [{ symbol := "AAPL", target_price := 150, condition := "above", user_id := "u1" }]
      { symbol := "AAPL", price := 150, volume := 10, timestamp := 0 } =
    ([{ symbol := "AAPL", target_price := 150, condition := "above", user_id := "u1",
        is_active := false }],
     [{ symbol := "AAPL", target_price := 150, condition := "above", user_id := "u1",
        is_active := false }]) := by decide

/-- `check_alerts` in one step: the new state maps each firing alert to its
deactivated form, and the returned list is the firing alerts, deactivated,
in order. -/
theorem check_alerts_eq (alerts : List PriceAlert) (stock : StockPrice) :
    AlertSystem.check_alerts alerts stock =
      (alerts.map (fun a => if AlertSystem.fires stock a then AlertSystem.deactivate a else a),
       (alerts.filter (AlertSystem.fires stock)).map AlertSystem.deactivate) := by
  induction alerts with
  | nil => rfl
  | cons a rest ih =>
    simp only [AlertSystem.check_alerts, ih, List.map_cons, List.filter_cons]
    cases ha : a.is_active with
    | false => simp [AlertSystem.fires, ha]
    | true =>
      cases hs : a.symbol == stock.symbol with
      | false =>
        simp [AlertSystem.fires, ha, hs]
        intro h
        simp [h] at hs
      | true =>
        cases ht : AlertSystem.shouldTrigger a stock with
        | false => simp [AlertSystem.fires, AlertSystem.deactivate, ha, hs, ht]
        | true =>
          simp [AlertSystem.fires, AlertSystem.deactivate, ha, hs, ht]
          exact eq_of_beq hs

/-- Unfolding of the per-alert trigger test into propositional form. -/
theorem fires_iff (stock : StockPrice) (a : PriceAlert) :
    AlertSystem.fires stock a = true ↔
      a.is_active = true ∧ a.symbol = stock.symbol ∧
        ((a.condition = "above" ∧ a.target_price ≤ stock.price) ∨
         (a.condition = "below" ∧ stock.price ≤ a.target_price)) := by
  simp [AlertSystem.fires, AlertSystem.shouldTrigger, Bool.and_eq_true,
    Bool.or_eq_true, and_assoc]

/-- Two alerts with the same deactivated form agree on every field other
than the active flag. -/
theorem deactivate_fields (a b : PriceAlert)
    (h : AlertSystem.deactivate b = AlertSystem.deactivate a) :
    b.symbol = a.symbol ∧ b.target_price = a.target_price ∧
      b.condition = a.condition ∧ b.user_id = a.user_id := by
  cases a
  cases b
  simp [AlertSystem.deactivate, PriceAlert.mk.injEq] at h ⊢
  tauto

/-- C2: for every quote `q` and alert `a` in the collection with
`a.is_active = true` and `a.symbol = q.symbol`, `check_alerts` returns `a`
(in its deactivated form, since the trigger mutates it in place) in the
triggered list iff (`a.condition = "above"` and `q.price >= a.target_price`)
or (`a.condition = "below"` and `q.price <= a.target_price`); every returned
alert has `is_active = false`; and at a tie `q.price = a.target_price` both
an above alert and a below alert at that target trigger. -/
theorem spec_c2 :
    (∀ (stock : StockPrice) (alerts : List PriceAlert) (a : PriceAlert),
        a ∈ alerts → a.is_active = true → a.symbol = stock.symbol →
        (AlertSystem.deactivate a ∈ (AlertSystem.check_alerts alerts stock).2 ↔
          ((a.condition = "above" ∧ a.target_price ≤ stock.price) ∨
           (a.condition = "below" ∧ stock.price ≤ a.target_price)))) ∧
    (∀ (stock : StockPrice) (alerts : List PriceAlert) (b : PriceAlert),
        b ∈ (AlertSystem.check_alerts alerts stock).2 → b.is_active = false) ∧
    (∀ (stock : StockPrice) (alerts : List PriceAlert) (a : PriceAlert),
        a ∈ alerts → a.is_active = true → a.symbol = stock.symbol →
        stock.price = a.target_price →
        (a.condition = "above" ∨ a.condition = "below") →
        AlertSystem.deactivate a ∈ (AlertSystem.check_alerts alerts stock).2) := by
  have main : ∀ (stock : StockPrice) (alerts : List PriceAlert) (a : PriceAlert),
      a ∈ alerts → a.is_active = true → a.symbol = stock.symbol →
      (AlertSystem.deactivate a ∈ (AlertSystem.check_alerts alerts stock).2 ↔
        ((a.condition = "above" ∧ a.target_price ≤ stock.price) ∨
         (a.condition = "below" ∧ stock.price ≤ a.target_price))) := by
    intro stock alerts a ha hact hsym
    rw [check_alerts_eq]
    simp only [List.mem_map, List.mem_filter]
    constructor
    · rintro ⟨b, ⟨hbmem, hbfires⟩, hbeq⟩
      obtain ⟨hbs, hbt, hbc, hbu⟩ := deactivate_fields a b hbeq
      have hb := (fires_iff stock b).mp hbfires
      rcases hb.2.2 with ⟨hc, hle⟩ | ⟨hc, hle⟩
      · exact Or.inl ⟨hbc ▸ hc, hbt ▸ hle⟩
      · exact Or.inr ⟨hbc ▸ hc, hbt ▸ hle⟩
    · intro hcond
      exact ⟨a, ⟨ha, (fires_iff stock a).mpr ⟨hact, hsym, hcond⟩⟩, rfl⟩
  refine ⟨main, ?_, ?_⟩
  · intro stock alerts b hb
    rw [check_alerts_eq] at hb
    simp only [List.mem_map] at hb
    obtain ⟨a, _, rfl⟩ := hb
    rfl
  · intro stock alerts a ha hact hsym hprice hcond
    refine (main stock alerts a ha hact hsym).mpr ?_
    rcases hcond with hc | hc
    · exact Or.inl ⟨hc, le_of_eq hprice.symm⟩
    · exact Or.inr ⟨hc, le_of_eq hprice⟩

/-- Witness for C2 at the spec's own tie scenario: an AAPL quote at 150
triggers both the above-150 alert and the below-150 alert. -/
theorem spec_c2_witness :
    AlertSystem.deactivate aaplAbove150 ∈
      (AlertSystem.check_alerts [aaplAbove150, aaplBelow150] (quoteAAPL 150)).2 ∧
    AlertSystem.deactivate aaplBelow150 ∈
      (AlertSystem.check_alerts [aaplAbove150, aaplBelow150] (quoteAAPL 150)).2 :=
  ⟨(spec_c2.1 (quoteAAPL 150) [aaplAbove150, aaplBelow150] aaplAbove150
      (by decide) (by decide) (by decide)).mpr (by decide),
   spec_c2.2.2 (quoteAAPL 150) [aaplAbove150, aaplBelow150] aaplBelow150
      (by decide) (by decide) (by decide) (by decide) (by decide)⟩

/-- C6: once an alert's active flag is false it never returns to true: the
alert at any position survives `check_alerts` with a flag that can only stay
or become false, `add_alert` leaves existing positions untouched,
`remove_alert` keeps every surviving alert unchanged (the result is a
sublist), and every alert in a triggered list originates from an alert whose
flag was true — an inactive alert is never triggered again.
(`get_active_alerts` is read-only in the source and has no state output.) -/
theorem spec_c6 :
    (∀ (alerts : List PriceAlert) (stock : StockPrice) (i : ℕ)
        (a b : PriceAlert),
        alerts.get? i = some a →
        (AlertSystem.check_alerts alerts stock).1.get? i = some b →
        a.is_active = false → b.is_active = false) ∧
    (∀ (alerts : List PriceAlert) (alert : PriceAlert) (i : ℕ),
        i < alerts.length →
        (AlertSystem.add_alert alerts alert).2.get? i = alerts.get? i) ∧
    (∀ (alerts : List PriceAlert) (s u : String),
        ((AlertSystem.remove_alert alerts s u).2).Sublist alerts) ∧
    (∀ (alerts : List PriceAlert) (stock : StockPrice) (b : PriceAlert),
        b ∈ (AlertSystem.check_alerts alerts stock).2 →
        ∃ a, a ∈ alerts ∧ a.is_active = true ∧ b = AlertSystem.deactivate a) := by
  refine ⟨?_, ?_, ?_, ?_⟩
  · intro alerts stock i a b hga hgb hfalse
    rw [check_alerts_eq] at hgb
    rw [List.get?_map, hga] at hgb
    simp only [Option.map_some'] at hgb
    obtain rfl : b = if AlertSystem.fires stock a then AlertSystem.deactivate a else a :=
      (Option.some_inj.mp hgb).symm
    by_cases hf : AlertSystem.fires stock a = true
    · simp [hf, AlertSystem.deactivate]
    · simpa [hf] using hfalse
  · intro alerts alert i h1
    simp only [AlertSystem.add_alert]
    exact List.get?_append h1
  · intro alerts s u
    simpa only [AlertSystem.remove_alert] using List.filter_sublist alerts
  · intro alerts stock b hb
    rw [check_alerts_eq] at hb
    simp only [List.mem_map, List.mem_filter] at hb
    obtain ⟨a, ⟨hmem, hfires⟩, rfl⟩ := hb
    exact ⟨a, hmem, ((fires_iff stock a).mp hfires).1, rfl⟩

/-- Witness for C6: an already-inactive alert stays inactive through an
evaluation whose price satisfies its condition, and the triggered entry of
an active alert traces back to that active alert. -/
theorem spec_c6_witness :
    (AlertSystem.deactivate aaplAbove150).is_active = false ∧
    ∃ a, a ∈ [aaplAbove150] ∧ a.is_active = true ∧
      AlertSystem.deactivate aaplAbove150 = AlertSystem.deactivate a :=
  ⟨spec_c6.1 [AlertSystem.deactivate aaplAbove150] (quoteAAPL 151) 0
      (AlertSystem.deactivate aaplAbove150) (AlertSystem.deactivate aaplAbove150)
      (by decide) (by decide) (by decide),
   spec_c6.2.2.2 [aaplAbove150] (quoteAAPL 151)
      (AlertSystem.deactivate aaplAbove150) (by decide)⟩

/-- A filter's output is strictly shorter iff some element fails the
predicate. -/
theorem filter_length_lt_iff {α : Type} (p : α → Bool) (l : List α) :
    (l.filter p).length < l.length ↔ ∃ x ∈ l, p x = false := by
  induction l with
  | nil => simp
  | cons a t ih =>
    cases hp : p a with
    | false =>
      simp only [List.filter_cons, hp, Bool.false_eq_true, if_false, List.length_cons]
      constructor
      · intro _
        exact ⟨a, List.mem_cons_self a t, hp⟩
      · intro _
        exact Nat.lt_succ_of_le (List.length_filter_le p t)
    | true =>
      simp only [List.filter_cons, hp, if_true, List.length_cons,
        Nat.succ_lt_succ_iff, ih]
      constructor
      · rintro ⟨x, hx, hpx⟩
        exact ⟨x, List.mem_cons_of_mem a hx, hpx⟩
      · rintro ⟨x, hx, hpx⟩
        rcases List.mem_cons.mp hx with rfl | hx
        · rw [hp] at hpx
          cases hpx
        · exact ⟨x, hx, hpx⟩

/-- Every alert of a replicated collection is owned by the replicated
alert's owner. -/
theorem ownedCount_replicate (n : ℕ) (a : PriceAlert) :
    AlertSystem.ownedCount (List.replicate n a) a.user_id = n := by
  induction n with
  | zero => rfl
  | succ k ih =>
    simp only [AlertSystem.ownedCount, List.replicate_succ, List.filter_cons,
      beq_self_eq_true, if_true, List.length_cons] at ih ⊢
    rw [ih]

/-- C3 counterexample: no per-owner capacity limit exists at any threshold.
`add_alert` appends unconditionally and returns `True` (its `try` body
cannot raise), and no capacity setting is read — `config/settings.py`
defines none.  So the claim that an add at the configured per-owner maximum
fails and leaves the collection unchanged is false for every choice of
maximum, refuted at the state `replicate m aaplAbove150` where the owner
already holds exactly `m` alerts. -/
theorem spec_c3_cex :
    ¬ ∃ m : ℕ, ∀ (alerts : List PriceAlert) (alert : PriceAlert),
        m ≤ AlertSystem.ownedCount alerts alert.user_id →
        (AlertSystem.add_alert alerts alert).1 = false ∧
        (AlertSystem.add_alert alerts alert).2 = alerts := by
  rintro ⟨m, h⟩
  have hm := h (List.replicate m aaplAbove150) aaplAbove150
      (ownedCount_replicate m aaplAbove150).ge
  exact absurd hm.1 (by simp [AlertSystem.add_alert])

/-- C3 amended: `add_alert` always succeeds and appends the alert, however
many alerts its owner already holds; the owner's count always grows by one
and the engine enforces no per-owner capacity limit. -/
theorem spec_c3_amended :
    ∀ (alerts : List PriceAlert) (alert : PriceAlert),
      (AlertSystem.add_alert alerts alert).1 = true ∧
      (AlertSystem.add_alert alerts alert).2 = alerts ++ [alert] ∧
      AlertSystem.ownedCount (AlertSystem.add_alert alerts alert).2 alert.user_id =
        AlertSystem.ownedCount alerts alert.user_id + 1 := by
  intro alerts alert
  refine ⟨rfl, rfl, ?_⟩
  simp [AlertSystem.add_alert, AlertSystem.ownedCount, List.filter_append]

/-- C4 counterexample: `remove_alert` does not return the number of alerts
deleted.  Deleting one matching alert and deleting two matching alerts
return the very same value (`True`, modelled as the boolean
`removed_count > 0` the source computes), so the returned value cannot be
the count, which differs (1 versus 2). -/
theorem spec_c4_cex :
    (AlertSystem.remove_alert [aaplAbove150] "AAPL" "u1").1 =
      (AlertSystem.remove_alert [aaplAbove150, aaplAbove150] "AAPL" "u1").1 ∧
    ([aaplAbove150] : List PriceAlert).length -
      (AlertSystem.remove_alert [aaplAbove150] "AAPL" "u1").2.length = 1 ∧
    ([aaplAbove150, aaplAbove150] : List PriceAlert).length -
      (AlertSystem.remove_alert [aaplAbove150, aaplAbove150] "AAPL" "u1").2.length = 2 := by
  decide

/-- C4 amended: `remove_alert` deletes exactly the alerts whose symbol and
owner both match (the active flag plays no role), keeps every other alert
untouched, and returns `True` iff at least one alert was deleted — `False`
when none matched, which is not an error. -/
theorem spec_c4_amended :
    ∀ (alerts : List PriceAlert) (s u : String),
      (AlertSystem.remove_alert alerts s u).2 =
        alerts.filter (fun a => !(a.symbol == s && a.user_id == u)) ∧
      ((AlertSystem.remove_alert alerts s u).1 = true ↔
        ∃ a ∈ alerts, a.symbol = s ∧ a.user_id = u) ∧
      (∀ b ∈ alerts, ¬(b.symbol = s ∧ b.user_id = u) →
        b ∈ (AlertSystem.remove_alert alerts s u).2) := by
  intro alerts s u
  refine ⟨rfl, ?_, ?_⟩
  · simp only [AlertSystem.remove_alert, decide_eq_true_eq]
    rw [filter_length_lt_iff]
    constructor
    · rintro ⟨x, hx, hpf⟩
      refine ⟨x, hx, ?_⟩
      simpa using hpf
    · rintro ⟨x, hx, hs, hu⟩
      exact ⟨x, hx, by simp [hs, hu]⟩
  · intro b hb hnot
    simp only [AlertSystem.remove_alert]
    rw [List.mem_filter]
    have hor : ¬b.symbol = s ∨ ¬b.user_id = u := by
      by_cases hbs : b.symbol = s
      · exact Or.inr (fun h2 => hnot ⟨hbs, h2⟩)
      · exact Or.inl hbs
    exact ⟨hb, by simpa using hor⟩

/-- Witness for C4's amended statement: a non-matching alert (same symbol,
different owner) survives the removal. -/
theorem spec_c4_amended_witness :
    aaplBelow150 ∈ (AlertSystem.remove_alert [aaplAbove150, aaplBelow150] "AAPL" "u1").2 :=
  (spec_c4_amended [aaplAbove150, aaplBelow150] "AAPL" "u1").2.2 aaplBelow150
    (by decide) (by decide)

/-- C10: calling `get_active_alerts` with the empty string as owner id takes
the falsy branch of `if user_id:`, so it returns the active alerts of every
owner — the same result as passing `None` — and not the set of active
alerts whose owner id is the empty string (shown distinct on a sample
collection). -/
theorem spec_c10 :
    (∀ alerts : List PriceAlert,
        AlertSystem.get_active_alerts alerts (some "") =
          alerts.filter (fun a => a.is_active)) ∧
    (∀ alerts : List PriceAlert,
        AlertSystem.get_active_alerts alerts (some "") =
          AlertSystem.get_active_alerts alerts none) ∧
    AlertSystem.get_active_alerts [aaplAbove150] (some "") = [aaplAbove150] ∧
    List.filter (fun a => a.is_active && a.user_id == "") [aaplAbove150] = [] := by
  refine ⟨fun alerts => rfl, fun alerts => rfl, by decide, by decide⟩

/-- The delivered list of the broadcast loop: the connections whose send
did not raise, in order. -/
theorem broadcastLoop_fst (sendOkF : ℕ → Bool) (l : List ℕ) :
    (WebSocketManager.broadcastLoop sendOkF l).1 = l.filter sendOkF := by
  induction l with
  | nil => rfl
  | cons c rest ih =>
    rcases hb : WebSocketManager.broadcastLoop sendOkF rest with ⟨d, x⟩
    rw [hb] at ih
    cases hc : sendOkF c <;>
      simp [WebSocketManager.broadcastLoop, hb, hc, List.filter_cons, ih]

/-- The disconnected list of the broadcast loop: the connections whose send
raised, in order. -/
theorem broadcastLoop_snd (sendOkF : ℕ → Bool) (l : List ℕ) :
    (WebSocketManager.broadcastLoop sendOkF l).2 = l.filter (fun c => !sendOkF c) := by
  induction l with
  | nil => rfl
  | cons c rest ih =>
    rcases hb : WebSocketManager.broadcastLoop sendOkF rest with ⟨d, x⟩
    rw [hb] at ih
    cases hc : sendOkF c <;>
      simp [WebSocketManager.broadcastLoop, hb, hc, List.filter_cons, ih]

/-- `disconnect` is exactly first-occurrence erasure (the membership guard
only avoids the exception `list.remove` would raise on a missing element). -/
theorem disconnect_eq_erase (conns : List ℕ) (ws : ℕ) :
    WebSocketManager.disconnect conns ws = conns.erase ws := by
  by_cases h : ws ∈ conns
  · simp [WebSocketManager.disconnect, h]
  · simp [WebSocketManager.disconnect, h, List.erase_of_not_mem h]

/-- Folding `disconnect` is folding erasure. -/
theorem foldl_disconnect_eq (ds : List ℕ) :
    ∀ init : List ℕ,
      List.foldl WebSocketManager.disconnect init ds =
        List.foldl (fun acc c => acc.erase c) init ds := by
  induction ds with
  | nil => intro init; rfl
  | cons d rest ih =>
    intro init
    simp only [List.foldl_cons, disconnect_eq_erase]
    exact ih (init.erase d)

/-- Erasing elements all different from the head leaves the head in place. -/
theorem foldl_erase_cons_of_ne :
    ∀ (ds : List ℕ) (a : ℕ) (l : List ℕ), (∀ d ∈ ds, d ≠ a) →
      List.foldl (fun acc c => acc.erase c) (a :: l) ds =
        a :: List.foldl (fun acc c => acc.erase c) l ds := by
  intro ds
  induction ds with
  | nil => intro a l _; rfl
  | cons d rest ih =>
    intro a l hne
    simp only [List.foldl_cons]
    rw [List.erase_cons_tail
      (by simpa using (hne d (List.mem_cons_self d rest)).symm)]
    exact ih a (l.erase d) (fun x hx => hne x (List.mem_cons_of_mem d hx))

/-- Erasing, one by one, every element failing `p` from a list leaves
exactly the elements satisfying `p` — duplicates included, since each
failing occurrence contributes one erasure. -/
theorem foldl_erase_filter (p : ℕ → Bool) :
    ∀ l : List ℕ,
      List.foldl (fun acc c => acc.erase c) l (l.filter (fun c => !p c)) =
        l.filter p := by
  intro l
  induction l with
  | nil => rfl
  | cons a t ih =>
    cases hp : p a with
    | false =>
      simp only [List.filter_cons, hp, Bool.not_false, if_true,
        Bool.false_eq_true, if_false, List.foldl_cons, List.erase_cons_head]
      exact ih
    | true =>
      simp only [List.filter_cons, hp, Bool.not_true, Bool.false_eq_true,
        if_false, if_true]
      rw [foldl_erase_cons_of_ne (t.filter (fun c => !p c)) a t ?_, ih]
      intro d hd hda
      have hfd := List.of_mem_filter hd
      subst hda
      simp [hp] at hfd

/-- C7: `broadcast` attempts a send to every currently-registered handle;
every handle whose send raises is automatically disconnected while the
message still reaches every other registered handle, and the call always
returns normally (the model is a total function — the bare `except` in the
source swallows every send failure).  After `connect` then `disconnect` on
the same fresh handle, a broadcast performs zero sends to that handle. -/
theorem spec_c7 :
    (∀ (conns : List ℕ) (sendOkF : ℕ → Bool),
        (WebSocketManager.broadcast conns sendOkF).attempted = conns) ∧
    (∀ (conns : List ℕ) (sendOkF : ℕ → Bool),
        (WebSocketManager.broadcast conns sendOkF).conns = conns.filter sendOkF) ∧
    (∀ (conns : List ℕ) (sendOkF : ℕ → Bool),
        (WebSocketManager.broadcast conns sendOkF).delivered = conns.filter sendOkF) ∧
    (∀ (conns : List ℕ) (ws : ℕ) (sendOkF : ℕ → Bool), ws ∉ conns →
        WebSocketManager.disconnect (WebSocketManager.connect conns ws) ws = conns ∧
        (WebSocketManager.broadcast
            (WebSocketManager.disconnect (WebSocketManager.connect conns ws) ws)
            sendOkF).attempted.count ws = 0) := by
  have hatt : ∀ (conns : List ℕ) (sendOkF : ℕ → Bool),
      (WebSocketManager.broadcast conns sendOkF).attempted = conns := by
    intro conns f
    cases conns with
    | nil => rfl
    | cons a t =>
      rcases hb : WebSocketManager.broadcastLoop f (a :: t) with ⟨d, x⟩
      simp [WebSocketManager.broadcast, hb]
  have hfresh : ∀ (conns : List ℕ) (ws : ℕ), ws ∉ conns →
      WebSocketManager.disconnect (WebSocketManager.connect conns ws) ws = conns := by
    intro conns ws hws
    rw [disconnect_eq_erase, WebSocketManager.connect,
      List.erase_append_right [ws] hws, List.erase_cons_head, List.append_nil]
  refine ⟨hatt, ?_, ?_, ?_⟩
  · intro conns f
    cases conns with
    | nil => rfl
    | cons a t =>
      have h1 := broadcastLoop_snd f (a :: t)
      rcases hb : WebSocketManager.broadcastLoop f (a :: t) with ⟨d, x⟩
      rw [hb] at h1
      simp only [WebSocketManager.broadcast, List.isEmpty_cons,
        Bool.false_eq_true, if_false, hb]
      rw [foldl_disconnect_eq]
      have h1x : x = List.filter (fun c => !f c) (a :: t) := h1
      rw [h1x]
      exact foldl_erase_filter f (a :: t)
  · intro conns f
    cases conns with
    | nil => rfl
    | cons a t =>
      have h0 := broadcastLoop_fst f (a :: t)
      rcases hb : WebSocketManager.broadcastLoop f (a :: t) with ⟨d, x⟩
      rw [hb] at h0
      simp only [WebSocketManager.broadcast, List.isEmpty_cons,
        Bool.false_eq_true, if_false, hb]
      exact h0
  · intro conns ws f hws
    refine ⟨hfresh conns ws hws, ?_⟩
    rw [hfresh conns ws hws, hatt conns f]
    exact List.count_eq_zero.mpr hws

/-- Witness for C7: handle 3 registers into `[1, 2]` and unregisters; the
next broadcast attempts zero sends to it. -/
theorem spec_c7_witness :
    WebSocketManager.disconnect (WebSocketManager.connect [1, 2] 3) 3 = [1, 2] ∧
    (WebSocketManager.broadcast
        (WebSocketManager.disconnect (WebSocketManager.connect [1, 2] 3) 3)
        (fun c => c == 1)).attempted.count 3 = 0 :=
  spec_c7.2.2.2 [1, 2] 3 (fun c => c == 1) (by decide)

/-- C9: `disconnect` on a handle not (or no longer) in the registry leaves
the membership list unchanged; under the registry's no-duplicates invariant
(each live connection is appended once), a second `disconnect` of the same
handle yields the same state as a single one, and the invariant is
preserved. -/
theorem spec_c9 :
    (∀ (conns : List ℕ) (ws : ℕ), ws ∉ conns →
        WebSocketManager.disconnect conns ws = conns) ∧
    (∀ (conns : List ℕ) (ws : ℕ), conns.Nodup →
        WebSocketManager.disconnect (WebSocketManager.disconnect conns ws) ws =
          WebSocketManager.disconnect conns ws) ∧
    (∀ (conns : List ℕ) (ws : ℕ), conns.Nodup →
        (WebSocketManager.disconnect conns ws).Nodup) := by
  refine ⟨?_, ?_, ?_⟩
  · intro conns ws h
    rw [disconnect_eq_erase]
    exact List.erase_of_not_mem h
  · intro conns ws h
    rw [disconnect_eq_erase, disconnect_eq_erase]
    exact List.erase_of_not_mem h.not_mem_erase
  · intro conns ws h
    rw [disconnect_eq_erase]
    exact h.erase ws

/-- Witness for C9: removing an absent handle is a no-op, and a duplicated
`disconnect` equals a single one. -/
theorem spec_c9_witness :
    WebSocketManager.disconnect [1, 2] 3 = [1, 2] ∧
    WebSocketManager.disconnect (WebSocketManager.disconnect [1, 2] 2) 2 =
      WebSocketManager.disconnect [1, 2] 2 :=
  ⟨spec_c9.1 [1, 2] 3 (by decide), spec_c9.2.1 [1, 2] 2 (by decide)⟩

/-- C8: within one streaming cycle, a failed fetch contributes nothing and
aborts nothing — deleting a `none` result anywhere leaves the cycle's
effects unchanged — and every successfully fetched quote is still broadcast
(the cycle is a total function, so it always completes). -/
theorem spec_c8 :
    (∀ (pre post : List (Option StockPrice)),
        DataFetcher.streamCycle (pre ++ none :: post) =
          DataFetcher.streamCycle (pre ++ post)) ∧
    (∀ (fetch : String → Option StockPrice) (symbols : List String)
        (s : String) (q : StockPrice),
        s ∈ symbols → fetch s = some q →
        DataFetcher.Effect.wsBroadcast (stockUpdateMessage q) ∈
          DataFetcher.runCycle fetch symbols) := by
  have hmem : ∀ (results : List (Option StockPrice)) (q : StockPrice),
      some q ∈ results →
      DataFetcher.Effect.wsBroadcast (stockUpdateMessage q) ∈
        DataFetcher.streamCycle results := by
    intro results q hq
    induction results with
    | nil => cases hq
    | cons r rest ih =>
      rcases List.mem_cons.mp hq with heq | hmem2
      · rw [← heq]
        simp [DataFetcher.streamCycle]
      · cases r with
        | none => simpa [DataFetcher.streamCycle] using ih hmem2
        | some p =>
          simp only [DataFetcher.streamCycle]
          exact List.mem_cons_of_mem _ (List.mem_cons_of_mem _ (ih hmem2))
  refine ⟨?_, ?_⟩
  · intro pre post
    induction pre with
    | nil => rfl
    | cons r rest ih =>
      cases r with
      | none => simpa [DataFetcher.streamCycle] using ih
      | some p => simp [DataFetcher.streamCycle, ih]
  · intro fetch symbols s q hs hfetch
    exact hmem (symbols.map fetch) q (hfetch ▸ List.mem_map_of_mem fetch hs)

/-- Witness for C8 at the spec's scenario: GOOGL's fetch fails while AAPL's
succeeds, and AAPL's quote is still broadcast in that cycle. -/
theorem spec_c8_witness :
    DataFetcher.Effect.wsBroadcast (stockUpdateMessage (quoteAAPL 151)) ∈
      DataFetcher.runCycle
        (fun s => if s == "AAPL" then some (quoteAAPL 151) else none)
        DataFetcher.STOCK_SYMBOLS :=
  spec_c8.2 (fun s => if s == "AAPL" then some (quoteAAPL 151) else none)
    DataFetcher.STOCK_SYMBOLS "AAPL" (quoteAAPL 151) (by decide) (by decide)

/-- C1: the quote loop never evaluates quotes against the alert engine and
never notifies.  The cycle's effects contain no notification for any fetch
outcome; yet at the failing input — an AAPL quote at 151 with an active
above-150 alert held by "u1" — `check_alerts` would trigger the alert, and
the (never invoked) `process_stock_update` pipeline would emit exactly the
notification the claim describes, carrying symbol, target, condition,
trigger price and time.  The cycle only broadcasts the `stock_update`
message and publishes `result.dict()` to Redis. -/
theorem spec_c1_bug :
    (∀ results : List (Option StockPrice),
        (DataFetcher.streamCycle results).filter DataFetcher.Effect.isNotify = []) ∧
    (AlertSystem.check_alerts [aaplAbove150] (quoteAAPL 151)).2 =
      [AlertSystem.deactivate aaplAbove150] ∧
    (AlertSystem.process_stock_update 7 [aaplAbove150] (quoteAAPL 151)).2 =
      [{ chat_id := "u1", symbol := "AAPL", target_price := 150,
         current_price := 151, condition := "above", time := 7 }] ∧
    DataFetcher.runCycle
        (fun s => if s == "AAPL" then some (quoteAAPL 151) else none)
        DataFetcher.STOCK_SYMBOLS =
      [DataFetcher.Effect.wsBroadcast (stockUpdateMessage (quoteAAPL 151)),
       DataFetcher.Effect.redisPublish "stock_updates"
         (JValue.jobj (stockPriceDict (quoteAAPL 151)))] := by
  refine ⟨?_, by decide, by decide, rfl⟩
  intro results
  induction results with
  | nil => rfl
  | cons r rest ih =>
    cases r with
    | none => simpa [DataFetcher.streamCycle] using ih
    | some p =>
      simpa [DataFetcher.streamCycle, List.filter_cons,
        DataFetcher.Effect.isNotify] using ih

/-- C5 counterexample: the quote broadcast's `type` field is the string
"stock_update", not "quote_update", and the echo event carries its payload
under "message" with no "data" field at all. -/
theorem spec_c5_cex :
    msgField (stockUpdateMessage (quoteAAPL 151)) "type" =
      some (JValue.jstr "stock_update") ∧
    ("stock_update" : String) ≠ "quote_update" ∧
    msgField (echoMessage "hi") "data" = none :=
  ⟨rfl, by decide, rfl⟩

/-- C5 amended: a quote broadcast is
`\x7b"type": "stock_update", "data": ...\x7d` whose payload carries symbol,
price, volume, timestamp and change_percent (null when absent); a
prediction broadcast is `\x7b"type": "predictions", "data": [...]\x7d`; the
echo reply is `\x7b"type": "echo", "message": ...\x7d` with no "data"
field. -/
theorem spec_c5_amended :
    (∀ p : StockPrice,
        msgField (stockUpdateMessage p) "type" = some (JValue.jstr "stock_update") ∧
        msgField (stockUpdateMessage p) "data" = some (JValue.jobj (stockPriceDict p)) ∧
        lookupField (stockPriceDict p) "symbol" = some (JValue.jstr p.symbol) ∧
        lookupField (stockPriceDict p) "price" = some (JValue.jnum p.price) ∧
        lookupField (stockPriceDict p) "volume" = some (JValue.jnum p.volume) ∧
        lookupField (stockPriceDict p) "timestamp" = some (JValue.jnum p.timestamp) ∧
        lookupField (stockPriceDict p) "change_percent" =
          some (match p.change_percent with
                | some c => JValue.jnum c
                | none => JValue.jnull)) ∧
    (∀ preds : List Prediction,
        msgField (predictionsMessage preds) "type" = some (JValue.jstr "predictions") ∧
        msgField (predictionsMessage preds) "data" =
          some (JValue.jarr (preds.map (fun p => JValue.jobj (predictionDict p))))) ∧
    (∀ s : String,
        msgField (echoMessage s) "type" = some (JValue.jstr "echo") ∧
        msgField (echoMessage s) "data" = none ∧
        msgField (echoMessage s) "message" =
          some (JValue.jstr ("Received: " ++ s))) :=
  ⟨fun p => ⟨rfl, rfl, rfl, rfl, rfl, rfl, rfl⟩,
   fun preds => ⟨rfl, rfl⟩,
   fun s => ⟨rfl, rfl, rfl⟩⟩
